import Mathlib

set_option maxRecDepth 8000

/-!
Verification of the `rust-plugin-tutorial` repository: a host process
(`src/host/src/main.rs`) that dynamically loads a plugin shared library
(`src/plugin/src/lib.rs`), marshals command-line arguments into an FFI-safe
tagged value representation, invokes the plugin's entry point across the ABI
boundary, and unmarshals the result.

The embedding is shallow:
  * machine integers are `Nat` / `Int` with explicit bounds where overflow
    matters (`usize`/`u64` are 64-bit: the model assumes a 64-bit target,
    which is what both crates are compiled for);
  * a raw pointer to bytes is modelled as the `List Nat` of bytes that are
    readable starting at the pointer (each entry < 256); reading past the end
    of that list is undefined behavior, surfaced as an explicit
    `fatal` / `ub` outcome in result types;
  * Rust `String` / `&str` text is modelled as the list of Unicode scalar
    values (`List Nat`), with an executable UTF-8 encoder/decoder connecting
    it to the byte level, exactly as `CStr::to_str` / `CString::new` do.
-/

/-! ## UTF-8 encoding and decoding

Executable models of Rust's UTF-8 validation (`str::from_utf8`, used by
`CStr::to_str`) and encoding (`String` stores UTF-8 bytes).  The decoder
follows the standard UTF-8 table: it rejects overlong forms, surrogates
(U+D800..U+DFFF) and code points above U+10FFFF, exactly as Rust does. -/

/-- Is `b` a UTF-8 continuation byte (`0x80..=0xBF`)? -/
def isCont (b : Nat) : Bool := 0x80 ≤ b && b ≤ 0xBF

/-- Decode a UTF-8 byte sequence into its list of Unicode scalar values,
or `none` if the bytes are not valid UTF-8 (Rust's `str::from_utf8`). -/
def utf8Decode : List Nat → Option (List Nat)
  | [] => some []
  | b0 :: rest =>
    if b0 < 0x80 then
      (utf8Decode rest).map (b0 :: ·)
    else if b0 < 0xC2 then
      none
    else if b0 ≤ 0xDF then
      match rest with
      | b1 :: rest2 =>
        if isCont b1 then
          (utf8Decode rest2).map (((b0 - 0xC0) * 0x40 + (b1 - 0x80)) :: ·)
        else none
      | [] => none
    else if b0 ≤ 0xEF then
      match rest with
      | b1 :: b2 :: rest2 =>
        let lo := if b0 = 0xE0 then 0xA0 else 0x80
        let hi := if b0 = 0xED then 0x9F else 0xBF
        if lo ≤ b1 && b1 ≤ hi && isCont b2 then
          (utf8Decode rest2).map
            (((b0 - 0xE0) * 0x1000 + (b1 - 0x80) * 0x40 + (b2 - 0x80)) :: ·)
        else none
      | _ => none
    else if b0 ≤ 0xF4 then
      match rest with
      | b1 :: b2 :: b3 :: rest2 =>
        let lo := if b0 = 0xF0 then 0x90 else 0x80
        let hi := if b0 = 0xF4 then 0x8F else 0xBF
        if lo ≤ b1 && b1 ≤ hi && isCont b2 && isCont b3 then
          (utf8Decode rest2).map
            (((b0 - 0xF0) * 0x40000 + (b1 - 0x80) * 0x1000 +
              (b2 - 0x80) * 0x40 + (b3 - 0x80)) :: ·)
        else none
      | _ => none
    else none

/-- UTF-8 encoding of a single Unicode scalar value. -/
def utf8EncodeChar (cp : Nat) : List Nat :=
  if cp < 0x80 then [cp]
  else if cp < 0x800 then
    [0xC0 + cp / 0x40, 0x80 + cp % 0x40]
  else if cp < 0x10000 then
    [0xE0 + cp / 0x1000, 0x80 + cp / 0x40 % 0x40, 0x80 + cp % 0x40]
  else
    [0xF0 + cp / 0x40000, 0x80 + cp / 0x1000 % 0x40,
      0x80 + cp / 0x40 % 0x40, 0x80 + cp % 0x40]

/-- UTF-8 encoding of a list of Unicode scalar values
(the byte contents of a Rust `String` holding that text). -/
def utf8Encode (cps : List Nat) : List Nat := (cps.map utf8EncodeChar).flatten

/-- Unicode scalar values of a Lean `String` (Rust text is modelled at this
level). -/
def strCodepoints (s : String) : List Nat := s.data.map Char.toNat

/-- The UTF-8 bytes stored in a Rust `String` whose text is `s`
(`String::as_ptr` exposes exactly these bytes, with no terminator). -/
def strBytes (s : String) : List Nat := utf8Encode (strCodepoints s)

/-- Back from scalar values to a Lean `String` (for modelling host output). -/
def cpsToString (cps : List Nat) : String := ⟨cps.map Char.ofNat⟩

/-! ## Pointer / C-string primitives -/

/-- `CStr::from_ptr` / the `strlen` scan done by `CString::from_raw`: read
bytes from the pointed-to memory up to and excluding the first NUL byte.
`mem` is the readable memory starting at the pointer; if it contains no NUL
byte the scan runs past the end of the allocation, which is undefined
behavior (`none`). -/
def cstrFromPtr (mem : List Nat) : Option (List Nat) :=
  if 0 ∈ mem then some (mem.takeWhile (· ≠ 0)) else none

/-- `CString::new(bytes)`: fails (`none`) when the bytes contain an interior
NUL; otherwise the heap allocation holds the bytes followed by a NUL
terminator, which is what `into_raw` exposes. -/
def cstringNew (bytes : List Nat) : Option (List Nat) :=
  if 0 ∈ bytes then none else some (bytes ++ [0])

/-! ## FFI-safe types shared by the two crates

Both `src/plugin/src/lib.rs` and `src/host/src/main.rs` declare identical
`#[repr(C)]` types `PluginValue`, `PluginType`, `PluginResult`,
`PluginMetadata`; they are modelled once.  A `PluginValue::String` payload
is a raw pointer, modelled as the list of readable bytes; a
`PluginValue::Double` payload (`f64`) is kept as its 64-bit pattern and is
never computed with (floating point is not modelled; the host operations on
it are parameters, see `FloatOps`). -/

inductive PluginType where
  | bool
  | int
  | uint
  | double
  | string
deriving DecidableEq, Repr

inductive PluginValue where
  | bool (b : Bool)
  | int (i : Int)
  | uint (u : Nat)
  | double (bits : Nat)
  | string (mem : List Nat)
deriving DecidableEq, Repr

/-- `PluginResult`: `Ok(PluginValue)` or `Err(*mut i8)`; the error payload is
the bytes readable at the returned message pointer (NUL-terminated when
produced by `plugin_error`). -/
inductive PluginResult where
  | ok (v : PluginValue)
  | error (msgMem : List Nat)
deriving DecidableEq, Repr

structure PluginMetadata where
  name : List Nat
  arg_types : List PluginType
  arg_types_len : Nat
  return_type : PluginType
deriving DecidableEq, Repr

/-! ## The plugin crate (`src/plugin/src/lib.rs`) -/

/-- `usize::MAX` / `u64::MAX` on the 64-bit target. -/
def USIZE_MAX : Nat := 2 ^ 64 - 1

/-- Outcome of running plugin code: either the function returns an ordinary
`PluginResult`, or the process is lost (`fatal`): an out-of-bounds pointer
read (undefined behavior), or a panic escaping the `catch_unwind` boundary
(unwinding out of an `extern "C"` function aborts the process). -/
inductive EntryOutcome where
  | ret (r : PluginResult)
  | fatal
deriving DecidableEq, Repr

/-- Outcome of running a closure under `std::panic::catch_unwind`. -/
inductive Unwind (α : Type) where
  | ok (val : α)
  | panicked
deriving DecidableEq, Repr

/-- `repeat_impl(arg1: &str, arg2: u64) -> String { arg1.repeat(arg2 as usize) }`:
pure string repetition.  Text is a list of Unicode scalar values. -/
def repeat_impl (arg1 : List Nat) (arg2 : Nat) : List Nat :=
  (List.replicate arg2 arg1).flatten

/-- Byte length of text when stored as UTF-8 (Rust `str::len`). -/
def utf8Len (cps : List Nat) : Nat := (utf8Encode cps).length

/-- Running `repeat_impl` under the Rust runtime: `str::repeat` computes
`self.len().checked_mul(n).expect("capacity overflow")`, so it panics
(an unwind caught by the entry point's `catch_unwind`) when the byte length
of the result overflows `usize`; otherwise it returns the repetition. -/
def repeatImplRun (s : List Nat) (n : Nat) : Unwind (List Nat) :=
  if utf8Len s * n ≤ USIZE_MAX then .ok (repeat_impl s n) else .panicked

/-- `plugin_error(message)`: `PluginResult::Err(CString::new(message).unwrap().into_raw())`.
The `unwrap` panics on an interior NUL; that panic is outside any
`catch_unwind`, so it would abort (`fatal`).  All messages in the source are
NUL-free literals, so the `fatal` branch is unreachable in practice. -/
def plugin_error (message : List Nat) : EntryOutcome :=
  match cstringNew message with
  | some bytes => .ret (.error bytes)
  | none => .fatal

def msgArgsLen : List Nat := strBytes "args_len should be 2"
def msgArg0 : List Nat := strBytes "arg0 is invalid; expected String"
def msgArg1 : List Nat := strBytes "arg1 is invalid; expected UInt"
def msgUtf8 : List Nat := strBytes "arg0 is invalid; expected valid UTF-8 string"
def msgPanicked : List Nat := strBytes "function panicked"

/-- `plugin_entrypoint(args: *const PluginValue, args_len: usize)`, with the
wrapped computation (`repeat_impl` run under the runtime) abstracted as
`impl` so that theorems can state that malformed inputs never reach it.

`argsMem` is the array memory readable at `args` (the host passes
`call_args.as_ptr()`, so exactly the vector's elements); dereferencing
`args.offset(i)` beyond it is undefined behavior (`fatal`).  The source:

  * `args_len != 2` → `plugin_error("args_len should be 2")`;
  * `let PluginValue::String(string) = &*args.offset(0) else` →
    `plugin_error("arg0 is invalid; expected String")`;
  * `let PluginValue::UInt(count) = &*args.offset(1) else` →
    `plugin_error("arg1 is invalid; expected UInt")`;
  * `CStr::from_ptr(*string).to_str()`: NUL-scan then UTF-8 validation,
    `Err` → `plugin_error("arg0 is invalid; expected valid UTF-8 string")`;
  * `catch_unwind(|| repeat_impl(string, *count))`: `Err` →
    `plugin_error("function panicked")`, `Ok(value)` →
    `PluginResult::Ok(PluginValue::String(CString::new(value).unwrap().into_raw()))`. -/
def plugin_entrypoint_with (impl : List Nat → Nat → Unwind (List Nat))
    (argsMem : List PluginValue) (args_len : Nat) : EntryOutcome :=
  if args_len ≠ 2 then plugin_error msgArgsLen
  else
    match argsMem[0]? with
    | none => .fatal
    | some (PluginValue.string stringPtr) =>
      match argsMem[1]? with
      | none => .fatal
      | some (PluginValue.uint count) =>
        match cstrFromPtr stringPtr with
        | none => .fatal
        | some bytes =>
          match utf8Decode bytes with
          | none => plugin_error msgUtf8
          | some string =>
            match impl string count with
            | .panicked => plugin_error msgPanicked
            | .ok value =>
              match cstringNew (utf8Encode value) with
              | none => .fatal
              | some out => .ret (.ok (.string out))
      | some _ => plugin_error msgArg1
    | some _ => plugin_error msgArg0

/-- The exported `plugin_entrypoint` of the repeat plugin. -/
def plugin_entrypoint (argsMem : List PluginValue) (args_len : Nat) :
    EntryOutcome :=
  plugin_entrypoint_with repeatImplRun argsMem args_len

/-- `plugin_metadata()`: name points at the static literal `"repeat\x00"`,
`arg_types` at a two-element array `[PluginType::String, PluginType::UInt]`,
`arg_types_len` 2, return type `String`.  The model records the pointed-to
values; the storage duration of the pointers is analysed separately (see
`storageOf`). -/
def plugin_metadata (_ : Unit) : PluginMetadata :=
  { name := strBytes "repeat" ++ [0]
  , arg_types := [.string, .uint]
  , arg_types_len := 2
  , return_type := .string }

/-! ## The host crate (`src/host/src/main.rs`)

The host parses command-line arguments according to the plugin's declared
argument types.  The numeric parsers below are the standard library's
`FromStr` implementations for `bool`, `i64` and `u64`
(`from_str_radix` with radix 10); `f64` parsing and formatting involve
floating point, which is not modelled shallowly — they are passed as the
`FloatOps` parameter, with the `f64` payload kept abstract as its 64-bit
pattern. -/

/-- Error kinds of `core::num::ParseIntError`. -/
inductive IntErrorKind where
  | empty
  | invalidDigit
  | posOverflow
  | negOverflow
deriving DecidableEq, Repr

/-- `char::to_digit(10)`. -/
def digitVal (c : Char) : Option Nat :=
  if '0' ≤ c ∧ c ≤ '9' then some (c.toNat - 48) else none

/-- Digit-accumulation loop of `from_str_radix` for an unsigned (or positive
signed) parse: each step is `checked_mul(10)` then `checked_add(digit)`,
overflow is `PosOverflow`.  `max` is the type's maximum value. -/
def parseUDigits (max : Nat) (acc : Nat) : List Char → Except IntErrorKind Nat
  | [] => .ok acc
  | c :: rest =>
    match digitVal c with
    | none => .error .invalidDigit
    | some d =>
      if acc * 10 + d ≤ max then parseUDigits max (acc * 10 + d) rest
      else .error .posOverflow

/-- Digit-accumulation loop of `from_str_radix` for a negative signed parse:
each step is `checked_mul(10)` then `checked_sub(digit)`, overflow is
`NegOverflow`.  `min` is the type's minimum value. -/
def parseNDigits (min : Int) (acc : Int) : List Char → Except IntErrorKind Int
  | [] => .ok acc
  | c :: rest =>
    match digitVal c with
    | none => .error .invalidDigit
    | some d =>
      if min ≤ acc * 10 - d then parseNDigits min (acc * 10 - d) rest
      else .error .negOverflow

def U64_MAX : Nat := 2 ^ 64 - 1
def I64_MAX : Nat := 2 ^ 63 - 1
def I64_MIN : Int := -(2 ^ 63)

/-- `u64::from_str` (`from_str_radix(src, 10)` for an unsigned type):
empty input is `Empty`; a lone sign is `InvalidDigit`; a leading `'+'` is
skipped; `'-'` is not a sign for unsigned types, so it fails as a bad digit;
then the digit loop runs with `u64::MAX` as the bound. -/
def parseU64 (s : String) : Except IntErrorKind Nat :=
  match s.data with
  | [] => .error .empty
  | ['+'] => .error .invalidDigit
  | '+' :: rest => parseUDigits U64_MAX 0 rest
  | l => parseUDigits U64_MAX 0 l

/-- `i64::from_str`: as `parseU64` but both signs are recognised, the
positive loop is bounded by `i64::MAX` and the negative loop by
`i64::MIN`. -/
def parseI64 (s : String) : Except IntErrorKind Int :=
  match s.data with
  | [] => .error .empty
  | ['+'] => .error .invalidDigit
  | ['-'] => .error .invalidDigit
  | '+' :: rest => (parseUDigits I64_MAX 0 rest).map Int.ofNat
  | '-' :: rest => parseNDigits I64_MIN 0 rest
  | l => (parseUDigits I64_MAX 0 l).map Int.ofNat

/-- `bool::from_str`: exactly `"true"` or `"false"`. -/
def parseBool (s : String) : Option Bool :=
  if s = "true" then some true
  else if s = "false" then some false
  else none

/-- `ParseIntError`'s `Debug` output, as appended by `expect` to its
message. -/
def intErrorDebug : IntErrorKind → String
  | .empty => "ParseIntError \x7b kind: Empty \x7d"
  | .invalidDigit => "ParseIntError \x7b kind: InvalidDigit \x7d"
  | .posOverflow => "ParseIntError \x7b kind: PosOverflow \x7d"
  | .negOverflow => "ParseIntError \x7b kind: NegOverflow \x7d"

/-- The two `f64` operations the host uses, passed as parameters because
floating point is outside the shallow embedding: `parse` is
`f64::from_str` (returning the bit pattern) and `display` is `f64`'s
`Display`. -/
structure FloatOps where
  parse : String → Option Nat
  display : Nat → String

/-- One iteration body of the host's marshaling loop: parse `arg` according
to the declared tag.  On failure the returned message is the panic payload
of the corresponding `expect` call: the expect text followed by the parse
error's `Debug` output.  Note the message does not involve the loop index.
A `String` argument is passed through as `arg.as_ptr()`: the readable bytes
at that pointer are exactly the UTF-8 content of `arg`, with no NUL
terminator appended. -/
def parseArg (fops : FloatOps) (ty : PluginType) (arg : String) :
    Except String PluginValue :=
  match ty with
  | .bool =>
    match parseBool arg with
    | some b => .ok (.bool b)
    | none => .error "Invalid bool: ParseBoolError"
  | .int =>
    match parseI64 arg with
    | .ok i => .ok (.int i)
    | .error k => .error ("Invalid int: " ++ intErrorDebug k)
  | .uint =>
    match parseU64 arg with
    | .ok u => .ok (.uint u)
    | .error k => .error ("Invalid uint: " ++ intErrorDebug k)
  | .double =>
    match fops.parse arg with
    | some bits => .ok (.double bits)
    | none => .error "Invalid double: ParseFloatError \x7b kind: Invalid \x7d"
  | .string => .ok (.string (strBytes arg))

/-- Result of the host's marshaling loop.  `attempts` counts how many loop
iterations were entered before the failure (so the failing argument is the
`attempts`-th, 1-based).  `ub` is reading `arg_types.add(i)` outside the
readable type array. -/
inductive MarshalOut where
  | ok (vals : List PluginValue)
  | panicked (msg : String) (attempts : Nat)
  | ub (attempts : Nat)
deriving DecidableEq, Repr

/-- The host's marshaling loop
`for (i, arg) in args[2..].iter().enumerate() { match *metadata.arg_types.add(i) { ... } }`:
for each argument, read the declared tag at index `i` and parse; the first
parse failure panics (`expect`), ending the loop. -/
def marshalArgs (fops : FloatOps) (argTypesMem : List PluginType) :
    List String → Nat → MarshalOut
  | [], _ => .ok []
  | arg :: rest, i =>
    match argTypesMem[i]? with
    | none => .ub (i + 1)
    | some ty =>
      match parseArg fops ty arg with
      | .error msg => .panicked msg (i + 1)
      | .ok v =>
        match marshalArgs fops argTypesMem rest (i + 1) with
        | .ok vals => .ok (v :: vals)
        | .panicked msg n => .panicked msg n
        | .ub n => .ub n

/-- The two entry points the dynamic loader binds (`#[derive(WrapperApi)]
struct PluginApi`).  A successfully loaded container is a value of this
structure; a failed `Container::load` is modelled as `none` at the call
site. -/
structure PluginApi where
  plugin_metadata : Unit → PluginMetadata
  plugin_entrypoint : List PluginValue → Nat → EntryOutcome

/-- `OwnedPluginValue`: host-side owned version of `PluginValue`; the
`String` variant owns a `CString` (modelled by its contents, without the
terminator). -/
inductive OwnedPluginValue where
  | bool (b : Bool)
  | int (i : Int)
  | uint (u : Nat)
  | double (bits : Nat)
  | string (bytes : List Nat)
deriving DecidableEq, Repr

/-- `PluginValue::to_owned`: scalar variants are copied; a `String` variant
is reclaimed with `CString::from_raw(s as *mut i8)`, whose `strlen` scan is
undefined behavior (`none`) when no NUL byte is readable at the pointer. -/
def PluginValue.to_owned : PluginValue → Option OwnedPluginValue
  | .bool b => some (.bool b)
  | .int i => some (.int i)
  | .uint u => some (.uint u)
  | .double bits => some (.double bits)
  | .string mem => (cstrFromPtr mem).map OwnedPluginValue.string

/-- `to_string_lossy` on C-string contents.  On valid UTF-8 (every byte
sequence this program actually prints) it is exact; on invalid UTF-8 the
model substitutes U+FFFD per byte ≥ 0x80, an approximation of Rust's
maximal-subpart substitution that no theorem below depends on. -/
def toStringLossy (bytes : List Nat) : String :=
  match utf8Decode bytes with
  | some cps => cpsToString cps
  | none => cpsToString (bytes.map fun b => if b < 0x80 then b else 0xFFFD)

/-- The `Display` implementation for `OwnedPluginValue`. -/
def OwnedPluginValue.display (fops : FloatOps) : OwnedPluginValue → String
  | .bool b => if b then "true" else "false"
  | .int i => toString i
  | .uint u => toString u
  | .double bits => fops.display bits
  | .string bytes => toStringLossy bytes

/-- How the host process ends: a normal `exit(code)` (a Rust panic in `main`
unwinds and the runtime exits with code 101), or `fatal` when undefined
behavior is reached (an out-of-bounds read on either side of the boundary,
or an abort inside the plugin call). -/
inductive HostOutcome where
  | exited (code : Nat)
  | fatal
deriving DecidableEq, Repr

/-- Observable result of one run of the host's `main`.

`stderrLines` records, for a panic, the panic payload (the runtime wraps it
with `thread 'main' panicked at <location>:` and a backtrace note; neither
names an argument position, so the payload is what matters).
`parseAttempts` is the number of marshaling-loop iterations entered, and
`entrypointCalled` whether control ever crossed into
`container.plugin_entrypoint`. -/
structure HostRun where
  outcome : HostOutcome
  stdoutLines : List String
  stderrLines : List String
  parseAttempts : Nat
  entrypointCalled : Bool
deriving DecidableEq, Repr

/-- `main` of `src/host/src/main.rs`, step by step:

  1. `args.len() < 2` → `eprintln!("Usage: {} <plugin>", args[0])`,
     `exit(1)` (with an empty `argv` the `args[0]` index itself panics);
  2. `Container::load(&args[1]).expect("Could not load plugin")` — a load
     failure is a panic: message to stderr, exit code 101;
  3. `plugin_metadata()` is called and the plugin name printed to stdout
     (`CStr::from_ptr(metadata.name)`: UB if no NUL is readable);
  4. `arg_types_len != args.len() - 2` → `eprintln!("Expected {} arguments,
     got {}", ..)`, `exit(1)` — before any marshaling;
  5. the marshaling loop (`marshalArgs`); a parse failure is a panic:
     message to stderr, exit code 101, the entry point is never reached;
  6. `plugin_entrypoint(call_args.as_ptr(), call_args.len())`;
  7. `drop(call_args.into_iter().map(|t| t.to_owned()))` — no heap effect,
     see `dropStatementEffects`;
  8. `Ok(value)` → `println!("Plugin returned: {}", value.to_owned())`,
     implicit exit 0; `Err(err)` →
     `eprintln!("{}", CString::from_raw(err).to_string_lossy())`, `exit(1)`. -/
def hostMain (fops : FloatOps) (load : Option PluginApi) (argv : List String) :
    HostRun :=
  if argv.length < 2 then
    match argv[0]? with
    | none =>
      { outcome := .exited 101, stdoutLines := []
      , stderrLines := ["index out of bounds: the len is 0 but the index is 0"]
      , parseAttempts := 0, entrypointCalled := false }
    | some a0 =>
      { outcome := .exited 1, stdoutLines := []
      , stderrLines := ["Usage: " ++ a0 ++ " <plugin>"]
      , parseAttempts := 0, entrypointCalled := false }
  else
    match load with
    | none =>
      { outcome := .exited 101, stdoutLines := []
      , stderrLines := ["Could not load plugin"]
      , parseAttempts := 0, entrypointCalled := false }
    | some container =>
      let metadata := container.plugin_metadata ()
      match cstrFromPtr metadata.name with
      | none =>
        { outcome := .fatal, stdoutLines := [], stderrLines := []
        , parseAttempts := 0, entrypointCalled := false }
      | some nameBytes =>
        let loadedLine := "Loaded plugin " ++ toStringLossy nameBytes
        if metadata.arg_types_len ≠ argv.length - 2 then
          { outcome := .exited 1, stdoutLines := [loadedLine]
          , stderrLines := ["Expected " ++ toString metadata.arg_types_len ++
              " arguments, got " ++ toString (argv.length - 2)]
          , parseAttempts := 0, entrypointCalled := false }
        else
          match marshalArgs fops metadata.arg_types (argv.drop 2) 0 with
          | .ub n =>
            { outcome := .fatal, stdoutLines := [loadedLine], stderrLines := []
            , parseAttempts := n, entrypointCalled := false }
          | .panicked msg n =>
            { outcome := .exited 101, stdoutLines := [loadedLine]
            , stderrLines := [msg]
            , parseAttempts := n, entrypointCalled := false }
          | .ok call_args =>
            match container.plugin_entrypoint call_args call_args.length with
            | .fatal =>
              { outcome := .fatal, stdoutLines := [loadedLine]
              , stderrLines := []
              , parseAttempts := (argv.drop 2).length, entrypointCalled := true }
            | .ret (.ok value) =>
              match value.to_owned with
              | none =>
                { outcome := .fatal, stdoutLines := [loadedLine]
                , stderrLines := []
                , parseAttempts := (argv.drop 2).length
                , entrypointCalled := true }
              | some owned =>
                { outcome := .exited 0
                , stdoutLines :=
                    [loadedLine, "Plugin returned: " ++ owned.display fops]
                , stderrLines := []
                , parseAttempts := (argv.drop 2).length
                , entrypointCalled := true }
            | .ret (.error errMem) =>
              match cstrFromPtr errMem with
              | none =>
                { outcome := .fatal, stdoutLines := [loadedLine]
                , stderrLines := []
                , parseAttempts := (argv.drop 2).length
                , entrypointCalled := true }
              | some msgBytes =>
                { outcome := .exited 1, stdoutLines := [loadedLine]
                , stderrLines := [toStringLossy msgBytes]
                , parseAttempts := (argv.drop 2).length
                , entrypointCalled := true }

/-! ## The host's cleanup statement (claim C10)

`drop(call_args.into_iter().map(|t| t.to_owned()))`: Rust iterator adapters
are lazy — the closure of `map` runs only when an element is pulled with
`next`.  `drop` pulls no elements; dropping the `Map` drops its base
`vec::IntoIter`, which drops the remaining elements in place.
`PluginValue` has no `Drop` implementation (its `String` variant is a raw
pointer, never freed implicitly), so dropping an element performs no heap
effect. -/

/-- Heap effects a statement can perform on the argument values. -/
inductive HeapEffect where
  | cstringFromRaw (mem : List Nat)
deriving DecidableEq, Repr

/-- Effects of applying the closure `|t| t.to_owned()` to one element and
then dropping the result: for a `String` variant, `CString::from_raw`
retakes ownership, so the payload allocation is freed. -/
def toOwnedEffects : PluginValue → List HeapEffect
  | .string mem => [.cstringFromRaw mem]
  | _ => []

/-- Effects of dropping one `PluginValue` in place: none (no `Drop` impl,
raw pointers are not freed implicitly). -/
def dropValueEffects : PluginValue → List HeapEffect := fun _ => []

/-- Effects of a consumer that pulls `pulls` elements from
`xs.into_iter().map(f)` and then drops the iterator: `f` runs on the pulled
prefix, the unconsumed rest is dropped element by element. -/
def mapIterRunEffects (f : PluginValue → List HeapEffect)
    (xs : List PluginValue) (pulls : Nat) : List HeapEffect :=
  ((xs.take pulls).map f).flatten ++
    ((xs.drop pulls).map dropValueEffects).flatten

/-- `Drop::drop` on an iterator pulls no elements. -/
def dropPulls : Nat := 0

/-- Effects of the source statement
`drop(call_args.into_iter().map(|t| t.to_owned()))`. -/
def dropStatementEffects (call_args : List PluginValue) : List HeapEffect :=
  mapIterRunEffects toOwnedEffects call_args dropPulls

/-- Effects of the comparison point named by the claim: simply dropping the
vector `call_args`. -/
def dropVecEffects (call_args : List PluginValue) : List HeapEffect :=
  (call_args.map dropValueEffects).flatten

/-! ## Storage duration of the metadata pointers (claim C9)

`plugin_metadata` returns two raw pointers:

  * `name: "repeat\x00".as_ptr()` — a `&'static str` literal; its bytes live
    in the shared library's read-only static storage, valid as long as the
    library is mapped.
  * `arg_types: [PluginType::String, PluginType::UInt].as_ptr()` — here the
    array is a value expression used as the auto-referenced receiver of
    `as_ptr`.  Rust materializes it as a temporary on `plugin_metadata`'s
    frame and drops it at the end of the enclosing statement; constant
    promotion applies only to explicit `&expr` borrows, not to method-call
    autorefs, so the temporary is not promoted to static storage and the
    returned pointer dangles once `plugin_metadata` returns (rustc's
    `dangling_pointers_from_temporaries` lint flags exactly this pattern).
    The host nevertheless dereferences it in its marshaling loop. -/

inductive StorageDuration where
  | staticStorage
  | temporaryStorage
deriving DecidableEq, Repr

/-- The receiver expression of each `as_ptr()` call in `plugin_metadata`. -/
inductive MetadataPtrExpr where
  | strLiteral
  | arrayTemporary
deriving DecidableEq, Repr

/-- Storage duration of the memory an `as_ptr` receiver occupies: a string
literal is static data; a materialized array temporary lives on the stack
until the end of the enclosing statement. -/
def storageOf : MetadataPtrExpr → StorageDuration
  | .strLiteral => .staticStorage
  | .arrayTemporary => .temporaryStorage

/-- The receiver of `name`'s `as_ptr`: the literal `"repeat\x00"`. -/
def namePtrExpr : MetadataPtrExpr := .strLiteral

/-- The receiver of `arg_types`'s `as_ptr`: the array
`[PluginType::String, PluginType::UInt]`. -/
def argTypesPtrExpr : MetadataPtrExpr := .arrayTemporary

/-! ## Concrete loaded plugins used to instantiate host theorems -/

/-- Stub float operations (no theorem depends on `f64` behavior). -/
def fopsStub : FloatOps := ⟨fun _ => none, fun _ => ""⟩

/-- The repeat plugin as loaded by the host. -/
def repeatApi : PluginApi := ⟨plugin_metadata, plugin_entrypoint⟩

/-- A well-formed plugin taking one `UInt` and returning `UInt 7`,
used to exhibit the host's success path. -/
def constApi : PluginApi :=
  ⟨fun _ => { name := [65, 0], arg_types := [.uint], arg_types_len := 1
            , return_type := .uint }
  , fun _ _ => .ret (.ok (.uint 7))⟩

/-- A plugin taking no arguments and reporting an error,
used to exhibit the host's plugin-error path. -/
def errApi : PluginApi :=
  ⟨fun _ => { name := [65, 0], arg_types := [], arg_types_len := 0
            , return_type := .uint }
  , fun _ _ => .ret (.error (strBytes "boom" ++ [0]))⟩

/-- A plugin declaring two `UInt` arguments, used to compare marshal
failures at different argument positions. -/
def twoUintApi : PluginApi :=
  ⟨fun _ => { name := [65, 0], arg_types := [.uint, .uint], arg_types_len := 2
            , return_type := .uint }
  , fun _ _ => .ret (.ok (.uint 0))⟩

/-! ## Theorems -/

/-- Helper: flattening a constantly-empty map gives the empty list. -/
theorem flatten_map_nil (xs : List PluginValue) :
    (xs.map (fun _ => ([] : List HeapEffect))).flatten = [] := by
  induction xs with
  | nil => rfl
  | cons a t ih => simp [ih]

/-- C1: invoking the repeat plugin's entry point with a valid String
argument (NUL-terminated, valid UTF-8) and a valid UInt count returns `Ok`
with the string repeated: `("ab", 3)` yields `"ababab"`, `("", 5)` yields
`""`, and for every valid string, count `0` yields `""` (the returned
payload is the result's UTF-8 bytes with the `CString` terminator, so the
empty result is `[0]`). -/
theorem c1_repeat_entrypoint_roundtrip :
    plugin_entrypoint [.string (strBytes "ab" ++ [0]), .uint 3] 2 =
      .ret (.ok (.string (strBytes "ababab" ++ [0]))) ∧
    plugin_entrypoint [.string (strBytes "" ++ [0]), .uint 5] 2 =
      .ret (.ok (.string [0])) ∧
    ∀ (mem bytes s : List Nat),
      cstrFromPtr mem = some bytes → utf8Decode bytes = some s →
      plugin_entrypoint [.string mem, .uint 0] 2 = .ret (.ok (.string [0])) := by
  refine ⟨rfl, rfl, fun mem bytes s h1 h2 => ?_⟩
  simp [plugin_entrypoint, plugin_entrypoint_with, h1, h2, repeatImplRun,
    repeat_impl, utf8Encode, cstringNew]

/-- Witness for C1's universal part, at the one-byte string `"a"`. -/
theorem c1_repeat_entrypoint_roundtrip_witness :
    plugin_entrypoint [.string [97, 0], .uint 0] 2 = .ret (.ok (.string [0])) :=
  c1_repeat_entrypoint_roundtrip.2.2 [97, 0] [97] [97] rfl rfl

/-- C2: every panic raised inside the plugin's computation is intercepted by
`catch_unwind` at the boundary and surfaces as `PluginResult::Err`
`"function panicked"`; and whenever the plugin call returns such an error
result, the host stays alive, prints it to stderr and exits with code 1. -/
theorem c2_panic_contained :
    (∀ (mem bytes s : List Nat) (n : Nat),
      cstrFromPtr mem = some bytes → utf8Decode bytes = some s →
      repeatImplRun s n = .panicked →
      plugin_entrypoint [.string mem, .uint n] 2 =
        .ret (.error (msgPanicked ++ [0]))) ∧
    (∀ (fops : FloatOps) (api : PluginApi) (argv : List String)
      (nameBytes : List Nat) (call_args : List PluginValue)
      (msgMem msgBytes : List Nat),
      2 ≤ argv.length →
      cstrFromPtr (api.plugin_metadata ()).name = some nameBytes →
      (api.plugin_metadata ()).arg_types_len = argv.length - 2 →
      marshalArgs fops (api.plugin_metadata ()).arg_types (argv.drop 2) 0 =
        .ok call_args →
      api.plugin_entrypoint call_args call_args.length = .ret (.error msgMem) →
      cstrFromPtr msgMem = some msgBytes →
      (hostMain fops (some api) argv).outcome = .exited 1 ∧
      (hostMain fops (some api) argv).stderrLines = [toStringLossy msgBytes]) := by
  constructor
  · intro mem bytes s n h1 h2 h3
    have hpe : plugin_error msgPanicked = .ret (.error (msgPanicked ++ [0])) := rfl
    simp [plugin_entrypoint, plugin_entrypoint_with, h1, h2, h3, hpe]
  · intro fops api argv nameBytes call_args msgMem msgBytes
      hlen hname hcount hm hep hcs
    have hnlt : ¬ argv.length < 2 := by omega
    simp [hostMain, hnlt, hname, hcount, hm, hep, hcs]

/-- Witness for C2: the plugin part at `("ab", 2^63)` (whose byte length
times count overflows `usize`, so `str::repeat` panics), and the host part
at a loaded plugin that reports the error `"boom"`. -/
theorem c2_panic_contained_witness :
    plugin_entrypoint [.string [97, 98, 0], .uint (2 ^ 63)] 2 =
      .ret (.error (msgPanicked ++ [0])) ∧
    (hostMain fopsStub (some errApi) ["host", "p"]).outcome = .exited 1 ∧
    (hostMain fopsStub (some errApi) ["host", "p"]).stderrLines =
      [toStringLossy (strBytes "boom")] :=
  ⟨c2_panic_contained.1 [97, 98, 0] [97, 98] [97, 98] (2 ^ 63) rfl rfl rfl,
   c2_panic_contained.2 fopsStub errApi ["host", "p"] [65] [] _ _
     (by decide) rfl rfl rfl rfl rfl⟩

/-- Counterexample to C3 as stated: on a load failure the host does not
exit with code 1 — `Container::load(..).expect("Could not load plugin")`
panics, and a panic reaching the top of `main` makes the process exit with
code 101. -/
theorem c3_load_failure_exit_code_counterexample :
    (hostMain fopsStub none ["host", "missing.so"]).outcome ≠ .exited 1 ∧
    (hostMain fopsStub none ["host", "missing.so"]).outcome = .exited 101 := by
  constructor
  · intro h
    have h2 : (hostMain fopsStub none ["host", "missing.so"]).outcome =
        .exited 101 := rfl
    rw [h2] at h
    exact absurd h (by decide)
  · rfl

/-- C3 (amended): the host exits 0 on success with the result on stdout;
exits 1 with a message on stderr on an argument-count mismatch (both the
usage check and the schema-length check) and on a plugin-reported error;
but a load failure terminates through a panic, with the message on stderr
and exit code 101, not 1. -/
theorem c3_exit_codes_amended :
    (∀ (fops : FloatOps) (load : Option PluginApi) (argv : List String)
      (a0 : String), argv.length < 2 → argv[0]? = some a0 →
      hostMain fops load argv =
        { outcome := .exited 1, stdoutLines := []
        , stderrLines := ["Usage: " ++ a0 ++ " <plugin>"]
        , parseAttempts := 0, entrypointCalled := false }) ∧
    (∀ (fops : FloatOps) (argv : List String), 2 ≤ argv.length →
      hostMain fops none argv =
        { outcome := .exited 101, stdoutLines := []
        , stderrLines := ["Could not load plugin"]
        , parseAttempts := 0, entrypointCalled := false }) ∧
    (∀ (fops : FloatOps) (api : PluginApi) (argv : List String)
      (nameBytes : List Nat), 2 ≤ argv.length →
      cstrFromPtr (api.plugin_metadata ()).name = some nameBytes →
      (api.plugin_metadata ()).arg_types_len ≠ argv.length - 2 →
      hostMain fops (some api) argv =
        { outcome := .exited 1
        , stdoutLines := ["Loaded plugin " ++ toStringLossy nameBytes]
        , stderrLines := ["Expected " ++
            toString (api.plugin_metadata ()).arg_types_len ++
            " arguments, got " ++ toString (argv.length - 2)]
        , parseAttempts := 0, entrypointCalled := false }) ∧
    (∀ (fops : FloatOps) (api : PluginApi) (argv : List String)
      (nameBytes : List Nat) (call_args : List PluginValue)
      (msgMem msgBytes : List Nat), 2 ≤ argv.length →
      cstrFromPtr (api.plugin_metadata ()).name = some nameBytes →
      (api.plugin_metadata ()).arg_types_len = argv.length - 2 →
      marshalArgs fops (api.plugin_metadata ()).arg_types (argv.drop 2) 0 =
        .ok call_args →
      api.plugin_entrypoint call_args call_args.length = .ret (.error msgMem) →
      cstrFromPtr msgMem = some msgBytes →
      hostMain fops (some api) argv =
        { outcome := .exited 1
        , stdoutLines := ["Loaded plugin " ++ toStringLossy nameBytes]
        , stderrLines := [toStringLossy msgBytes]
        , parseAttempts := (argv.drop 2).length
        , entrypointCalled := true }) ∧
    (∀ (fops : FloatOps) (api : PluginApi) (argv : List String)
      (nameBytes : List Nat) (call_args : List PluginValue)
      (value : PluginValue) (owned : OwnedPluginValue), 2 ≤ argv.length →
      cstrFromPtr (api.plugin_metadata ()).name = some nameBytes →
      (api.plugin_metadata ()).arg_types_len = argv.length - 2 →
      marshalArgs fops (api.plugin_metadata ()).arg_types (argv.drop 2) 0 =
        .ok call_args →
      api.plugin_entrypoint call_args call_args.length = .ret (.ok value) →
      value.to_owned = some owned →
      hostMain fops (some api) argv =
        { outcome := .exited 0
        , stdoutLines := ["Loaded plugin " ++ toStringLossy nameBytes,
            "Plugin returned: " ++ owned.display fops]
        , stderrLines := []
        , parseAttempts := (argv.drop 2).length
        , entrypointCalled := true }) := by
  refine ⟨?_, ?_, ?_, ?_, ?_⟩
  · intro fops load argv a0 hlt h0
    simp [hostMain, hlt, h0]
  · intro fops argv hlen
    have hnlt : ¬ argv.length < 2 := by omega
    simp [hostMain, hnlt]
  · intro fops api argv nameBytes hlen hname hmismatch
    have hnlt : ¬ argv.length < 2 := by omega
    simp [hostMain, hnlt, hname, hmismatch]
  · intro fops api argv nameBytes call_args msgMem msgBytes
      hlen hname hcount hm hep hcs
    have hnlt : ¬ argv.length < 2 := by omega
    simp [hostMain, hnlt, hname, hcount, hm, hep, hcs]
  · intro fops api argv nameBytes call_args value owned
      hlen hname hcount hm hep hto
    have hnlt : ¬ argv.length < 2 := by omega
    simp [hostMain, hnlt, hname, hcount, hm, hep, hto]

/-- Witness for C3 (amended), exercising all five branches at concrete
command lines: usage, load failure, schema mismatch, plugin-reported error,
and a successful invocation. -/
theorem c3_exit_codes_amended_witness :
    hostMain fopsStub none ["host"] =
      { outcome := .exited 1, stdoutLines := []
      , stderrLines := ["Usage: host <plugin>"]
      , parseAttempts := 0, entrypointCalled := false } ∧
    hostMain fopsStub none ["host", "p"] =
      { outcome := .exited 101, stdoutLines := []
      , stderrLines := ["Could not load plugin"]
      , parseAttempts := 0, entrypointCalled := false } ∧
    hostMain fopsStub (some constApi) ["host", "p"] =
      { outcome := .exited 1
      , stdoutLines := ["Loaded plugin A"]
      , stderrLines := ["Expected 1 arguments, got 0"]
      , parseAttempts := 0, entrypointCalled := false } ∧
    hostMain fopsStub (some errApi) ["host", "p"] =
      { outcome := .exited 1
      , stdoutLines := ["Loaded plugin A"]
      , stderrLines := ["boom"]
      , parseAttempts := 0, entrypointCalled := true } ∧
    hostMain fopsStub (some constApi) ["host", "p", "3"] =
      { outcome := .exited 0
      , stdoutLines := ["Loaded plugin A", "Plugin returned: 7"]
      , stderrLines := []
      , parseAttempts := 1, entrypointCalled := true } :=
  ⟨c3_exit_codes_amended.1 fopsStub none ["host"] "host" (by decide) rfl,
   c3_exit_codes_amended.2.1 fopsStub ["host", "p"] (by decide),
   c3_exit_codes_amended.2.2.1 fopsStub constApi ["host", "p"] [65]
     (by decide) rfl (by decide),
   c3_exit_codes_amended.2.2.2.1 fopsStub errApi ["host", "p"] [65] []
     (strBytes "boom" ++ [0]) (strBytes "boom")
     (by decide) rfl rfl rfl rfl rfl,
   c3_exit_codes_amended.2.2.2.2 fopsStub constApi ["host", "p", "3"] [65]
     [.uint 3] (.uint 7) (.uint 7) (by decide) rfl rfl rfl rfl rfl⟩

/-- Counterexample to C4 as stated: the marshal error does not name the
offending argument position.  Two runs against the same two-`UInt` plugin,
one failing at position 0 and one at position 1 (witnessed by the number of
loop iterations entered), produce byte-identical stderr output — the panic
payload `"Invalid uint: ..."` carries no position. -/
theorem c4_positionless_error_counterexample :
    (hostMain fopsStub (some twoUintApi) ["host", "p", "x", "1"]).parseAttempts
      = 1 ∧
    (hostMain fopsStub (some twoUintApi) ["host", "p", "1", "x"]).parseAttempts
      = 2 ∧
    (hostMain fopsStub (some twoUintApi) ["host", "p", "x", "1"]).stderrLines =
      (hostMain fopsStub (some twoUintApi) ["host", "p", "1", "x"]).stderrLines ∧
    (hostMain fopsStub (some twoUintApi) ["host", "p", "x", "1"]).outcome =
      .exited 101 ∧
    (hostMain fopsStub (some twoUintApi)
      ["host", "p", "x", "1"]).entrypointCalled = false :=
  ⟨rfl, rfl, rfl, rfl, rfl⟩

/-- C4 (amended): a textual input that fails to parse under its declared tag
makes marshaling fail hard — the `expect` panic carries the expected type
and the parse error, but not the argument position, reaches stderr and ends
the process with exit code 101 — and the plugin's entry point is never
invoked (the run is also independent of the plugin's entry point
function). -/
theorem c4_marshal_failure_amended :
    ∀ (fops : FloatOps) (api : PluginApi) (argv : List String)
      (nameBytes : List Nat) (msg : String) (n : Nat),
      2 ≤ argv.length →
      cstrFromPtr (api.plugin_metadata ()).name = some nameBytes →
      (api.plugin_metadata ()).arg_types_len = argv.length - 2 →
      marshalArgs fops (api.plugin_metadata ()).arg_types (argv.drop 2) 0 =
        .panicked msg n →
      hostMain fops (some api) argv =
        { outcome := .exited 101
        , stdoutLines := ["Loaded plugin " ++ toStringLossy nameBytes]
        , stderrLines := [msg]
        , parseAttempts := n
        , entrypointCalled := false } ∧
      ∀ ep2 : List PluginValue → Nat → EntryOutcome,
        hostMain fops (some ⟨api.plugin_metadata, ep2⟩) argv =
          hostMain fops (some api) argv := by
  intro fops api argv nameBytes msg n hlen hname hcount hm
  have hnlt : ¬ argv.length < 2 := by omega
  constructor
  · simp [hostMain, hnlt, hname, hcount, hm]
  · intro ep2
    simp [hostMain, hnlt, hname, hcount, hm]

/-- Witness for C4 (amended): the run `["host", "p", "x", "1"]` against the
two-`UInt` plugin fails to parse `"x"` at the first loop iteration. -/
theorem c4_marshal_failure_amended_witness :
    hostMain fopsStub (some twoUintApi) ["host", "p", "x", "1"] =
      { outcome := .exited 101
      , stdoutLines := ["Loaded plugin A"]
      , stderrLines := ["Invalid uint: ParseIntError \x7b kind: InvalidDigit \x7d"]
      , parseAttempts := 1
      , entrypointCalled := false } :=
  (c4_marshal_failure_amended fopsStub twoUintApi ["host", "p", "x", "1"] [65]
    "Invalid uint: ParseIntError \x7b kind: InvalidDigit \x7d" 1
    (by decide) rfl rfl rfl).1

/-- C5 is false of the code (a bug the spec's own invariant documents): the
host marshals a `String` argument as `arg.as_ptr()` on a Rust `String`,
whose buffer holds exactly the argument's UTF-8 bytes with no NUL
terminator, although both crates' `PluginValue` comment requires "a pointer
to a null-terminated string".  For the argument `"ab"` the readable bytes
are `[97, 98]`, containing no NUL, so the plugin's `CStr::from_ptr` read
does not terminate at the intended end of the argument: it runs past the
allocation (undefined behavior), and the end-to-end run of the host with
the repeat plugin on `("ab", 3)` is fatal. -/
theorem c5_string_marshal_not_null_terminated :
    parseArg fopsStub .string "ab" = .ok (.string (strBytes "ab")) ∧
    strBytes "ab" = [97, 98] ∧
    0 ∉ strBytes "ab" ∧
    cstrFromPtr (strBytes "ab") = none ∧
    (hostMain fopsStub (some repeatApi) ["host", "p", "ab", "3"]).outcome =
      .fatal :=
  ⟨rfl, rfl, by decide, rfl, rfl⟩

/-- C6: a command line whose argument count differs from the declared schema
length is rejected with exit code 1 before any marshaling and before the
plugin's computation runs: no marshaling-loop iteration is entered, the
entry point is never called, and the run is unchanged under replacing the
float parsers and the plugin's entry point function (for the usage check,
even under replacing the loaded plugin entirely), so no side effect of the
computation is observable. -/
theorem c6_schema_mismatch_rejected :
    (∀ (fops fops2 : FloatOps) (load load2 : Option PluginApi)
      (argv : List String) (a0 : String),
      argv.length < 2 → argv[0]? = some a0 →
      hostMain fops load argv = hostMain fops2 load2 argv ∧
      (hostMain fops load argv).outcome = .exited 1 ∧
      (hostMain fops load argv).parseAttempts = 0 ∧
      (hostMain fops load argv).entrypointCalled = false) ∧
    (∀ (fops fops2 : FloatOps) (api : PluginApi) (argv : List String)
      (nameBytes : List Nat) (ep2 : List PluginValue → Nat → EntryOutcome),
      2 ≤ argv.length →
      cstrFromPtr (api.plugin_metadata ()).name = some nameBytes →
      (api.plugin_metadata ()).arg_types_len ≠ argv.length - 2 →
      hostMain fops (some api) argv =
        hostMain fops2 (some ⟨api.plugin_metadata, ep2⟩) argv ∧
      (hostMain fops (some api) argv).outcome = .exited 1 ∧
      (hostMain fops (some api) argv).parseAttempts = 0 ∧
      (hostMain fops (some api) argv).entrypointCalled = false) := by
  constructor
  · intro fops fops2 load load2 argv a0 hlt h0
    simp [hostMain, hlt, h0]
  · intro fops fops2 api argv nameBytes ep2 hlen hname hmismatch
    have hnlt : ¬ argv.length < 2 := by omega
    simp [hostMain, hnlt, hname, hmismatch]

/-- Witness for C6 at the two concrete mismatching command lines
`["host"]` (usage check) and `["host", "p", "3", "4"]` against the
one-`UInt` plugin (schema check). -/
theorem c6_schema_mismatch_rejected_witness :
    ((hostMain fopsStub none ["host"]).outcome = .exited 1 ∧
      (hostMain fopsStub none ["host"]).parseAttempts = 0 ∧
      (hostMain fopsStub none ["host"]).entrypointCalled = false) ∧
    (hostMain fopsStub (some constApi) ["host", "p", "3", "4"] =
        hostMain fopsStub
          (some ⟨constApi.plugin_metadata, fun _ _ => .fatal⟩)
          ["host", "p", "3", "4"] ∧
      (hostMain fopsStub (some constApi) ["host", "p", "3", "4"]).outcome =
        .exited 1 ∧
      (hostMain fopsStub (some constApi)
        ["host", "p", "3", "4"]).parseAttempts = 0 ∧
      (hostMain fopsStub (some constApi)
        ["host", "p", "3", "4"]).entrypointCalled = false) :=
  ⟨(c6_schema_mismatch_rejected.1 fopsStub fopsStub none (some errApi)
      ["host"] "host" (by decide) rfl).2,
   c6_schema_mismatch_rejected.2 fopsStub fopsStub constApi
      ["host", "p", "3", "4"] [65] (fun _ _ => .fatal)
      (by decide) rfl (by decide)⟩

/-- C7: the entry point re-validates its inputs: when the argument count is
not 2, or argument 0 is not the `String` variant, or argument 1 is not the
`UInt` variant, it returns an error result, and the result is independent of
the wrapped computation — `repeat_impl` never runs.  (That no payload is
read through a mismatched discriminant is inherent in the `let-else`
pattern match the model mirrors: the error branches never bind a payload.) -/
theorem c7_entrypoint_revalidates :
    ∀ (impl impl2 : List Nat → Nat → Unwind (List Nat))
      (args : List PluginValue),
      (args.length ≠ 2 ∨
        (∃ v rest, args = v :: rest ∧ ∀ mem, v ≠ PluginValue.string mem) ∨
        (∃ v0 v rest, args = v0 :: v :: rest ∧ ∀ u, v ≠ PluginValue.uint u)) →
      (∃ msg, plugin_entrypoint_with impl args args.length =
        .ret (.error msg)) ∧
      plugin_entrypoint_with impl args args.length =
        plugin_entrypoint_with impl2 args args.length := by
  intro impl impl2 args h
  by_cases hl : args.length = 2
  · obtain ⟨a, b, rfl⟩ : ∃ a b, args = [a, b] := by
      match args, hl with
      | [a, b], _ => exact ⟨a, b, rfl⟩
    rcases h with h | ⟨v, rest, heq, hv⟩ | ⟨v0, v, rest, heq, hv⟩
    · exact absurd hl h
    · injection heq with h1 h2
      subst h1
      cases a with
      | string mem => exact absurd rfl (hv mem)
      | bool x => exact ⟨⟨msgArg0 ++ [0], rfl⟩, rfl⟩
      | int x => exact ⟨⟨msgArg0 ++ [0], rfl⟩, rfl⟩
      | uint x => exact ⟨⟨msgArg0 ++ [0], rfl⟩, rfl⟩
      | double x => exact ⟨⟨msgArg0 ++ [0], rfl⟩, rfl⟩
    · injection heq with h1 h2
      injection h2 with h2 h3
      subst h1
      subst h2
      cases a with
      | string mem =>
        cases b with
        | uint u => exact absurd rfl (hv u)
        | bool x => exact ⟨⟨msgArg1 ++ [0], rfl⟩, rfl⟩
        | int x => exact ⟨⟨msgArg1 ++ [0], rfl⟩, rfl⟩
        | double x => exact ⟨⟨msgArg1 ++ [0], rfl⟩, rfl⟩
        | string mem2 => exact ⟨⟨msgArg1 ++ [0], rfl⟩, rfl⟩
      | bool x => exact ⟨⟨msgArg0 ++ [0], rfl⟩, rfl⟩
      | int x => exact ⟨⟨msgArg0 ++ [0], rfl⟩, rfl⟩
      | uint x => exact ⟨⟨msgArg0 ++ [0], rfl⟩, rfl⟩
      | double x => exact ⟨⟨msgArg0 ++ [0], rfl⟩, rfl⟩
  · have e1 : plugin_entrypoint_with impl args args.length =
        plugin_error msgArgsLen := by
      simp [plugin_entrypoint_with, hl]
    have e2 : plugin_entrypoint_with impl2 args args.length =
        plugin_error msgArgsLen := by
      simp [plugin_entrypoint_with, hl]
    refine ⟨⟨msgArgsLen ++ [0], ?_⟩, e1.trans e2.symm⟩
    rw [e1]
    rfl

/-- Witness for C7: a malformed call whose argument 0 is a `UInt` instead of
a `String`, instantiated with the repeat computation on both sides. -/
theorem c7_entrypoint_revalidates_witness :
    (∃ msg, plugin_entrypoint_with repeatImplRun [.uint 1, .uint 2]
      ([PluginValue.uint 1, PluginValue.uint 2]).length = .ret (.error msg)) ∧
    plugin_entrypoint_with repeatImplRun [.uint 1, .uint 2]
        ([PluginValue.uint 1, PluginValue.uint 2]).length =
      plugin_entrypoint_with (fun _ _ => .panicked) [.uint 1, .uint 2]
        ([PluginValue.uint 1, PluginValue.uint 2]).length :=
  c7_entrypoint_revalidates repeatImplRun (fun _ _ => .panicked)
    [.uint 1, .uint 2]
    (Or.inr (Or.inl ⟨.uint 1, [.uint 2], rfl, fun mem h => by cases h⟩))

/-- C8: a `String` argument whose (NUL-delimited) bytes are not valid UTF-8
is rejected at decode time: the entry point returns the error
`"arg0 is invalid; expected valid UTF-8 string"` and the computation never
sees the text. -/
theorem c8_invalid_utf8_rejected :
    ∀ (mem bytes : List Nat) (n : Nat),
      cstrFromPtr mem = some bytes → utf8Decode bytes = none →
      plugin_entrypoint [.string mem, .uint n] 2 =
        .ret (.error (msgUtf8 ++ [0])) := by
  intro mem bytes n h1 h2
  have hpe : plugin_error msgUtf8 = .ret (.error (msgUtf8 ++ [0])) := rfl
  simp [plugin_entrypoint, plugin_entrypoint_with, h1, h2, hpe]

/-- Witness for C8 at the invalid byte `0xFF`. -/
theorem c8_invalid_utf8_rejected_witness :
    plugin_entrypoint [.string [0xFF, 0], .uint 1] 2 =
      .ret (.error (msgUtf8 ++ [0])) :=
  c8_invalid_utf8_rejected [0xFF, 0] [0xFF] 1 rfl rfl

/-- C9 is half-true of the code: `plugin_metadata` is a pure constant
function (every call returns the same metadata, no side effects), and the
`name` pointer is indeed borrowed from static storage; but the `arg_types`
pointer is produced by `as_ptr` on a materialized array temporary that dies
when `plugin_metadata` returns, so it is not borrowed from static storage
and does not remain valid for the lifetime of the loaded library. -/
theorem c9_metadata_storage :
    (∀ u v : Unit, plugin_metadata u = plugin_metadata v) ∧
    storageOf namePtrExpr = .staticStorage ∧
    storageOf argTypesPtrExpr = .temporaryStorage ∧
    storageOf argTypesPtrExpr ≠ .staticStorage :=
  ⟨fun _ _ => rfl, rfl, rfl, by decide⟩

/-- C10: the cleanup expression
`drop(call_args.into_iter().map(|t| t.to_owned()))` pulls no element
through the lazy `map`, so `to_owned` — and hence `CString::from_raw` — is
never executed on any argument, and its heap effects are exactly those of
dropping the vector itself: none. -/
theorem c10_drop_map_equiv_drop_vec :
    ∀ call_args : List PluginValue,
      dropStatementEffects call_args = dropVecEffects call_args ∧
      dropStatementEffects call_args = [] ∧
      ∀ mem, HeapEffect.cstringFromRaw mem ∉ dropStatementEffects call_args := by
  intro xs
  have h : dropStatementEffects xs = [] := by
    simp only [dropStatementEffects, mapIterRunEffects, dropPulls,
      dropValueEffects, List.take_zero, List.drop_zero, List.map_nil,
      List.flatten_nil, List.nil_append]
    exact flatten_map_nil xs
  have h2 : dropVecEffects xs = [] := by
    simp only [dropVecEffects, dropValueEffects]
    exact flatten_map_nil xs
  refine ⟨h.trans h2.symm, h, fun mem hmem => ?_⟩
  rw [h] at hmem
  exact absurd hmem (List.not_mem_nil _)

/-- Witness for C10 at a one-element argument vector holding a `String`
value. -/
theorem c10_drop_map_equiv_drop_vec_witness :
    dropStatementEffects [.string [97]] = dropVecEffects [.string [97]] ∧
    HeapEffect.cstringFromRaw [97] ∉ dropStatementEffects [.string [97]] :=
  ⟨(c10_drop_map_equiv_drop_vec [.string [97]]).1,
   (c10_drop_map_equiv_drop_vec [.string [97]]).2.2 [97]⟩
